import Mathlib

/-!
# Resolved-type queries of the Decaf expression nodes

A shallow embedding of `src/pp3/ast_expr.h`: the expression node classes and
their two virtual queries `GetType` and `GetTypeName`, followed by the
properties of those queries.

Conventions of the embedding.

* A C++ pointer result that may be `NULL` is an `Option` (for `Type *`) or a
  `CStr` (for `const char *`).
* Going through a null pointer (`p->m()` with `p == NULL`) has no defined
  result; the queries therefore return `Except Fault _`.
* Virtual dispatch is a `match` on the node's constructor; a class that does
  not override a query gets the body of `Expr`, which returns `NULL`.
-/

namespace Decaf

/-! ## Values returned by the queries -/

/-- Ways in which evaluating a query leaves defined behaviour. -/
inductive Fault where
  /-- A member was selected through a null pointer, or a null `const char *`
  was read as a string. -/
  | nullDeref
  /-- The characters behind a pointer to a destroyed object were read. -/
  | danglingRead
deriving DecidableEq, Repr

/-- A `const char *` as the queries return it. -/
inductive CStr where
  /-- The null pointer. -/
  | NULL
  /-- A pointer to live characters (a string literal, or characters owned by
  an object that outlives the call). -/
  | valid (chars : String)
  /-- A pointer into the buffer of a `std::string` local of the callee: the
  buffer held `chars` and is destroyed when the callee returns. -/
  | dangling (chars : String)
deriving DecidableEq, Repr

/-- Equality of query results is decidable. -/
instance instDecidableEqResult {α : Type} [DecidableEq α] :
    DecidableEq (Except Fault α) := fun a b =>
  match a, b with
  | .ok x, .ok y =>
      if h : x = y then isTrue (by rw [h]) else isFalse (fun e => h (by cases e; rfl))
  | .error x, .error y =>
      if h : x = y then isTrue (by rw [h]) else isFalse (fun e => h (by cases e; rfl))
  | .ok _, .error _ => isFalse (fun e => by cases e)
  | .error _, .ok _ => isFalse (fun e => by cases e)

/-! ## Declarations the header includes from elsewhere -/

/-- Modelled from the spec: the source-location tag every node carries ("used
only for diagnostic messages, not for semantics"). `yyltype` is declared
outside `ast_expr.h`; the four positions are the ones a Bison location has. -/
structure yyltype where
  first_line : Nat
  first_column : Nat
  last_line : Nat
  last_column : Nat
deriving DecidableEq, Repr

/-- Modelled from the spec: a field or method name with its location
(`Identifier` is declared in `ast.h`, which is not among the sources). -/
structure Identifier where
  loc : yyltype
  name : String
deriving DecidableEq, Repr

/-- Modelled from the spec: the queries of the external type representation
that `ast_expr.h` calls on a `Type *`, over an arbitrary carrier `Ty` of type
objects (`ast_type.h` is not among the sources).

* `GetTypeName` is `Type::GetTypeName()`, a `const char *`;
* `GetElemType` is `Type::GetElemType()`, a `Type *` ("arrayElementType(T) ->
  Type | NotAnArray"), `none` standing for `NULL`;
* `errorType` is the error-type sentinel, "a designated already-erroneous type
  value". -/
structure TypeFacts (Ty : Type) where
  GetTypeName : Ty → CStr
  GetElemType : Ty → Option Ty
  errorType : Ty

/-! ## The node classes of `ast_expr.h` -/

/-- Class `Operator`: a location and the token, `char tokenString[4]`. -/
structure Operator where
  loc : yyltype
  tokenString : String
deriving DecidableEq, Repr

mutual
/-- The concrete subclasses of `Expr`, one constructor per class, the fields
being the data members of the class (and the location where the constructor
takes one). A pointer member the header documents as possibly `NULL` is an
`Option`; `type` of `FieldAccess` and `Call` is decided by `CheckStatements`,
so it is an `Option` too. -/
inductive Expr (Ty : Type) where
  | EmptyExpr
  | IntConstant (loc : yyltype) (value : Int)
  | DoubleConstant (loc : yyltype) (value : Float)
  | BoolConstant (loc : yyltype) (value : Bool)
  | StringConstant (loc : yyltype) (value : String)
  | NullConstant (loc : yyltype)
  /-- Binary and unary constructor: `left` is `none` when unary. -/
  | ArithmeticExpr (left : Option (Expr Ty)) (op : Operator) (right : Expr Ty)
  /-- Binary constructor only. -/
  | RelationalExpr (left : Expr Ty) (op : Operator) (right : Expr Ty)
  /-- Binary constructor only. -/
  | EqualityExpr (left : Expr Ty) (op : Operator) (right : Expr Ty)
  /-- Binary and unary constructor: `left` is `none` when unary. -/
  | LogicalExpr (left : Option (Expr Ty)) (op : Operator) (right : Expr Ty)
  /-- Binary constructor only. -/
  | AssignExpr (left : Expr Ty) (op : Operator) (right : Expr Ty)
  /-- Class `This` derives from `Expr`, not from `LValue`. -/
  | This (loc : yyltype)
  /-- An `LValue` object seen as the `Expr` it is. -/
  | ofLValue (lv : LValue Ty)
  | Call (loc : yyltype) (base : Option (Expr Ty)) (field : Identifier)
      (actuals : List (Expr Ty)) (type : Option Ty)
  /-- Member `cType` is a `NamedType *`, a `Type` object. -/
  | NewExpr (loc : yyltype) (cType : Ty)
  | NewArrayExpr (loc : yyltype) (size : Expr Ty) (elemType : Ty)
  | ReadIntegerExpr (loc : yyltype)
  | ReadLineExpr (loc : yyltype)
  | PostfixExpr (loc : yyltype) (lvalue : LValue Ty) (optr : Operator)
/-- The concrete subclasses of `LValue`. -/
inductive LValue (Ty : Type) where
  | ArrayAccess (loc : yyltype) (base : Expr Ty) (subscript : Expr Ty)
  | FieldAccess (base : Option (Expr Ty)) (field : Identifier) (type : Option Ty)
end

/-! ## `GetType` -/

mutual
/-- Virtual `Type *GetType()`. Only `ArrayAccess`, `FieldAccess` and `Call`
override it; every other class runs `Expr::GetType`, `return NULL`. -/
def Expr.GetType {Ty : Type} (T : TypeFacts Ty) : Expr Ty → Except Fault (Option Ty)
  | .EmptyExpr => .ok none
  | .IntConstant _ _ => .ok none
  | .DoubleConstant _ _ => .ok none
  | .BoolConstant _ _ => .ok none
  | .StringConstant _ _ => .ok none
  | .NullConstant _ => .ok none
  | .ArithmeticExpr _ _ _ => .ok none
  | .RelationalExpr _ _ _ => .ok none
  | .EqualityExpr _ _ _ => .ok none
  | .LogicalExpr _ _ _ => .ok none
  | .AssignExpr _ _ _ => .ok none
  | .This _ => .ok none
  | .ofLValue lv => lv.GetType T
  -- Call: `return type;`
  | .Call _ _ _ _ type => .ok type
  | .NewExpr _ _ => .ok none
  | .NewArrayExpr _ _ _ => .ok none
  | .ReadIntegerExpr _ => .ok none
  | .ReadLineExpr _ => .ok none
  | .PostfixExpr _ _ _ => .ok none
/-- The overrides of `GetType` in the `LValue` classes. -/
def LValue.GetType {Ty : Type} (T : TypeFacts Ty) : LValue Ty → Except Fault (Option Ty)
  -- ArrayAccess: `return base->GetType()->GetElemType();`
  | .ArrayAccess _ base _ =>
      match base.GetType T with
      | .error f => .error f
      | .ok none => .error .nullDeref
      | .ok (some t) => .ok (T.GetElemType t)
  -- FieldAccess: `return type;`
  | .FieldAccess _ _ type => .ok type
end

/-! ## `GetTypeName` -/

mutual
/-- Virtual `const char *GetTypeName()`. Classes without an override
(`EmptyExpr`, `This`, `NewExpr`, `ReadIntegerExpr`, `ReadLineExpr`,
`PostfixExpr`) run `Expr::GetTypeName`, `return NULL`. -/
def Expr.GetTypeName {Ty : Type} (T : TypeFacts Ty) : Expr Ty → Except Fault CStr
  | .EmptyExpr => .ok .NULL
  | .IntConstant _ _ => .ok (.valid "int")
  | .DoubleConstant _ _ => .ok (.valid "double")
  | .BoolConstant _ _ => .ok (.valid "bool")
  | .StringConstant _ _ => .ok (.valid "string")
  | .NullConstant _ => .ok (.valid "null")
  -- ArithmeticExpr: `return right->GetTypeName();`
  | .ArithmeticExpr _ _ right => right.GetTypeName T
  | .RelationalExpr _ _ _ => .ok (.valid "bool")
  | .EqualityExpr _ _ _ => .ok (.valid "bool")
  | .LogicalExpr _ _ _ => .ok (.valid "bool")
  -- AssignExpr: `return left->GetTypeName();`
  | .AssignExpr left _ _ => left.GetTypeName T
  | .This _ => .ok .NULL
  | .ofLValue lv => lv.GetTypeName T
  -- Call: `return type->GetTypeName();`
  | .Call _ _ _ _ type =>
      match type with
      | none => .error .nullDeref
      | some t => .ok (T.GetTypeName t)
  | .NewExpr _ _ => .ok .NULL
  -- NewArrayExpr: `string delim = "[]"; string str = elemType->GetTypeName() + delim;
  -- return str.c_str();` The sum reads the characters of the element type's
  -- name; `str` is a local, so the pointer returned outlives its buffer.
  | .NewArrayExpr _ _ elemType =>
      match T.GetTypeName elemType with
      | .NULL => .error .nullDeref
      | .dangling _ => .error .danglingRead
      | .valid s => .ok (.dangling (s ++ "[]"))
  | .ReadIntegerExpr _ => .ok .NULL
  | .ReadLineExpr _ => .ok .NULL
  | .PostfixExpr _ _ _ => .ok .NULL
/-- The overrides of `GetTypeName` in the `LValue` classes. -/
def LValue.GetTypeName {Ty : Type} (T : TypeFacts Ty) : LValue Ty → Except Fault CStr
  -- ArrayAccess: `return base->GetType()->GetElemType()->GetTypeName();`
  | .ArrayAccess _ base _ =>
      match base.GetType T with
      | .error f => .error f
      | .ok none => .error .nullDeref
      | .ok (some t) =>
          match T.GetElemType t with
          | none => .error .nullDeref
          | some e => .ok (T.GetTypeName e)
  -- FieldAccess: `return type->GetTypeName();`
  | .FieldAccess _ _ type =>
      match type with
      | none => .error .nullDeref
      | some t => .ok (T.GetTypeName t)
end

/-! ## A concrete type representation, for evaluating the queries -/

/-- Modelled from the spec: "primitive types, named class/interface types,
array types" (`ast_type.h` is not among the sources). A primitive type is its
name, a named type is its identifier, an array type is its element type. -/
inductive DecafType where
  | prim (typeName : String)
  | NamedType (id : Identifier)
  | ArrayType (elemType : DecafType)
deriving DecidableEq, Repr

/-- Modelled from the spec: the type name of a `DecafType`; an array type is
named after its element type, "array of elemType", written with a trailing
`[]` as `NewArrayExpr` does. -/
def DecafType.GetTypeName : DecafType → String
  | .prim typeName => typeName
  | .NamedType id => id.name
  | .ArrayType elemType => elemType.GetTypeName ++ "[]"

/-- Modelled from the spec: "arrayElementType(T) -> Type | NotAnArray". -/
def DecafType.GetElemType : DecafType → Option DecafType
  | .ArrayType elemType => some elemType
  | _ => none

/-- Modelled from the spec: the type facts over `DecafType`, with the
error-type sentinel a primitive type of its own, named `error`. -/
def decafTypeFacts : TypeFacts DecafType where
  GetTypeName := fun t => CStr.valid t.GetTypeName
  GetElemType := DecafType.GetElemType
  errorType := DecafType.prim "error"

/-- Built-in type `int`. -/
def intType : DecafType := DecafType.prim "int"

/-- A location used for the example nodes. -/
def loc0 : yyltype := ⟨1, 1, 1, 1⟩

/-- An identifier at the example location. -/
def ident (name : String) : Identifier := ⟨loc0, name⟩

/-- An operator token at the example location. -/
def oper (tok : String) : Operator := ⟨loc0, tok⟩

/-! ## Example nodes -/

/-- The variable `arr`, a `FieldAccess` without base whose type was decided
to be `int[]`. -/
def arrOfInt : Expr DecafType :=
  Expr.ofLValue (LValue.FieldAccess none (ident "arr") (some (DecafType.ArrayType intType)))

/-- The named type `Foo`. Whether a class `Foo` is declared is a fact of the
scope resolver, which neither query consults. -/
def fooType : DecafType := DecafType.NamedType (ident "Foo")

/-- The variable `x`, a `FieldAccess` without base whose type was decided to
be the error-type sentinel. -/
def errVar : Expr DecafType :=
  Expr.ofLValue (LValue.FieldAccess none (ident "x") (some decafTypeFacts.errorType))

/-- The variable `i`, a `FieldAccess` without base whose type was decided to
be `int`. -/
def intVar : LValue DecafType :=
  LValue.FieldAccess none (ident "i") (some intType)

/-! ## Predicates used by the statements -/

/-- A query result is the error-type sentinel when it is the type name of
`errorType`. -/
def isErrorType {Ty : Type} (T : TypeFacts Ty) (r : Except Fault CStr) : Prop :=
  r = .ok (T.GetTypeName T.errorType)

/-- Deciding `isErrorType` is comparing two results. -/
instance instDecidableIsErrorType {Ty : Type} (T : TypeFacts Ty) (r : Except Fault CStr) :
    Decidable (isErrorType T r) :=
  inferInstanceAs (Decidable (r = .ok (T.GetTypeName T.errorType)))

/-! ## Literals -/

/-- C1: the type name of a literal node is fixed by its class: `int`,
`double`, `bool`, `string`, `null`, for every type representation, location
and value. -/
theorem literal_GetTypeName_fixed {Ty : Type} (T : TypeFacts Ty) (loc : yyltype)
    (i : Int) (d : Float) (b : Bool) (s : String) :
    (Expr.IntConstant loc i).GetTypeName T = .ok (.valid "int") ∧
    (Expr.DoubleConstant loc d).GetTypeName T = .ok (.valid "double") ∧
    (Expr.BoolConstant loc b).GetTypeName T = .ok (.valid "bool") ∧
    (Expr.StringConstant loc s).GetTypeName T = .ok (.valid "string") ∧
    (Expr.NullConstant loc).GetTypeName T = .ok (.valid "null") :=
  ⟨rfl, rfl, rfl, rfl, rfl⟩

/-! ## Compound expressions -/

/-- C2: an `ArithmeticExpr` whose operands resolve to the type name `n` (both
operands when binary, the sole operand when unary) resolves to `n`, for every
operator token. -/
theorem ArithmeticExpr_GetTypeName_operand {Ty : Type} (T : TypeFacts Ty)
    (left : Option (Expr Ty)) (op : Operator) (right : Expr Ty) (n : String)
    (hright : right.GetTypeName T = .ok (.valid n))
    (_hleft : ∀ l, left = some l → l.GetTypeName T = .ok (.valid n)) :
    (Expr.ArithmeticExpr left op right).GetTypeName T = .ok (.valid n) := by
  rw [Expr.GetTypeName]
  exact hright

/-- Witness for C2: `1 + 2` resolves to `int` and unary `- 2.5` to `double`. -/
theorem ArithmeticExpr_GetTypeName_operand_witness :
    (Expr.ArithmeticExpr (some (Expr.IntConstant loc0 1)) (oper "+")
        (Expr.IntConstant loc0 2)).GetTypeName decafTypeFacts = .ok (.valid "int") ∧
    (Expr.ArithmeticExpr none (oper "-")
        (Expr.DoubleConstant loc0 2.5)).GetTypeName decafTypeFacts = .ok (.valid "double") :=
  ⟨ArithmeticExpr_GetTypeName_operand decafTypeFacts (some (Expr.IntConstant loc0 1))
      (oper "+") (Expr.IntConstant loc0 2) "int" rfl (fun l h => by cases h; rfl),
   ArithmeticExpr_GetTypeName_operand decafTypeFacts none (oper "-")
      (Expr.DoubleConstant loc0 2.5) "double" rfl (fun l h => by cases h)⟩

/-- C3: every `RelationalExpr`, `EqualityExpr` and `LogicalExpr` (binary or
unary) resolves to `bool`, whatever the operator and the operands are. -/
theorem boolean_compound_GetTypeName {Ty : Type} (T : TypeFacts Ty)
    (left right : Expr Ty) (optLeft : Option (Expr Ty)) (op : Operator) :
    (Expr.RelationalExpr left op right).GetTypeName T = .ok (.valid "bool") ∧
    (Expr.EqualityExpr left op right).GetTypeName T = .ok (.valid "bool") ∧
    (Expr.LogicalExpr optLeft op right).GetTypeName T = .ok (.valid "bool") :=
  ⟨rfl, rfl, rfl⟩

/-- C4: an `AssignExpr` resolves to exactly what its left operand resolves to,
whatever the right operand is. -/
theorem AssignExpr_GetTypeName_left {Ty : Type} (T : TypeFacts Ty)
    (left right : Expr Ty) (op : Operator) :
    (Expr.AssignExpr left op right).GetTypeName T = left.GetTypeName T := by
  rw [Expr.GetTypeName]

/-! ## Array access -/

/-- C5: when the base of an `ArrayAccess` resolves to a type `a` whose element
type is `E`, the access resolves to `E` (`GetType`) and to the name of `E`
(`GetTypeName`), for every subscript expression. -/
theorem ArrayAccess_resolves_to_element {Ty : Type} (T : TypeFacts Ty)
    (loc : yyltype) (base subscript : Expr Ty) (a E : Ty)
    (hbase : base.GetType T = .ok (some a)) (helem : T.GetElemType a = some E) :
    (Expr.ofLValue (LValue.ArrayAccess loc base subscript)).GetType T = .ok (some E) ∧
    (Expr.ofLValue (LValue.ArrayAccess loc base subscript)).GetTypeName T
      = .ok (T.GetTypeName E) := by
  constructor
  · rw [Expr.GetType, LValue.GetType, hbase]
    simp only [helem]
  · rw [Expr.GetTypeName, LValue.GetTypeName, hbase]
    simp only [helem]

/-- Witness for C5: with `arr` of type `int[]`, both `arr[0]` and `arr["a"]`
resolve to `int`. -/
theorem ArrayAccess_resolves_to_element_witness :
    arrOfInt.GetType decafTypeFacts = .ok (some (DecafType.ArrayType intType)) ∧
    ((Expr.ofLValue (LValue.ArrayAccess loc0 arrOfInt
        (Expr.IntConstant loc0 0))).GetType decafTypeFacts = .ok (some intType) ∧
     (Expr.ofLValue (LValue.ArrayAccess loc0 arrOfInt
        (Expr.IntConstant loc0 0))).GetTypeName decafTypeFacts = .ok (.valid "int")) ∧
    ((Expr.ofLValue (LValue.ArrayAccess loc0 arrOfInt
        (Expr.StringConstant loc0 "a"))).GetType decafTypeFacts = .ok (some intType) ∧
     (Expr.ofLValue (LValue.ArrayAccess loc0 arrOfInt
        (Expr.StringConstant loc0 "a"))).GetTypeName decafTypeFacts = .ok (.valid "int")) :=
  ⟨rfl,
   ArrayAccess_resolves_to_element decafTypeFacts loc0 arrOfInt (Expr.IntConstant loc0 0)
     (DecafType.ArrayType intType) intType rfl rfl,
   ArrayAccess_resolves_to_element decafTypeFacts loc0 arrOfInt (Expr.StringConstant loc0 "a")
     (DecafType.ArrayType intType) intType rfl rfl⟩

/-! ## Object and array construction -/

/-- What `NewArrayExpr::GetTypeName` returns when the element type has a live
name `s`: the characters `s[]`, behind a pointer into the destroyed local
`str`; the size expression is not read. -/
theorem NewArrayExpr_GetTypeName_eq {Ty : Type} (T : TypeFacts Ty) (loc : yyltype)
    (size : Expr Ty) (elemType : Ty) (s : String)
    (hname : T.GetTypeName elemType = .valid s) :
    (Expr.NewArrayExpr loc size elemType).GetTypeName T = .ok (.dangling (s ++ "[]")) := by
  rw [Expr.GetTypeName]
  simp only [hname]

/-- C6: evaluation of `NewArrayExpr::GetTypeName` on `new int[3]`, on
`new int["a"]` and on `new Foo[3]`: the characters built are the element
type's name followed by `[]`, but the pointer returned is `str.c_str()` of the
local `str`, which is destroyed on return, so no live type name comes back. -/
theorem NewArrayExpr_GetTypeName_dangling :
    (Expr.NewArrayExpr loc0 (Expr.IntConstant loc0 3) intType).GetTypeName decafTypeFacts
      = .ok (.dangling "int[]") ∧
    (Expr.NewArrayExpr loc0 (Expr.StringConstant loc0 "a") intType).GetTypeName decafTypeFacts
      = .ok (.dangling "int[]") ∧
    (Expr.NewArrayExpr loc0 (Expr.IntConstant loc0 3) fooType).GetTypeName decafTypeFacts
      = .ok (.dangling "Foo[]") ∧
    (Expr.NewArrayExpr loc0 (Expr.IntConstant loc0 3) intType).GetTypeName decafTypeFacts
      ≠ .ok (.valid "int[]") :=
  ⟨NewArrayExpr_GetTypeName_eq decafTypeFacts loc0 _ intType "int" rfl,
   NewArrayExpr_GetTypeName_eq decafTypeFacts loc0 _ intType "int" rfl,
   NewArrayExpr_GetTypeName_eq decafTypeFacts loc0 _ fooType "Foo" rfl,
   by decide⟩

/-- Both queries of a `NewExpr` are the defaults of `Expr`: the class declares
the member `cType` and no override. -/
theorem NewExpr_queries_default {Ty : Type} (T : TypeFacts Ty) (loc : yyltype) (cType : Ty) :
    (Expr.NewExpr loc cType).GetType T = .ok none ∧
    (Expr.NewExpr loc cType).GetTypeName T = .ok .NULL :=
  ⟨rfl, rfl⟩

/-- C7: evaluation of the queries on `new Foo`, `cType` being the named type
`Foo`: `GetType` and `GetTypeName` both return `NULL`, not the class type and
not its name `Foo`. -/
theorem NewExpr_resolves_to_NULL :
    decafTypeFacts.GetTypeName fooType = .valid "Foo" ∧
    (Expr.NewExpr loc0 fooType).GetType decafTypeFacts = .ok none ∧
    (Expr.NewExpr loc0 fooType).GetTypeName decafTypeFacts = .ok .NULL ∧
    (Expr.NewExpr loc0 fooType).GetTypeName decafTypeFacts
      ≠ .ok (decafTypeFacts.GetTypeName fooType) :=
  ⟨rfl, (NewExpr_queries_default decafTypeFacts loc0 fooType).1,
   (NewExpr_queries_default decafTypeFacts loc0 fooType).2, by decide⟩

/-! ## Operands of different types, operands in error -/

/-- C8, as stated, fails on `3 + "x"` and on `3 < "x"`: the operands resolve to
`int` and `string`, the sum resolves to `string` and the comparison to `bool`,
neither to the error-type sentinel. -/
theorem mismatched_operands_counterexample :
    (Expr.IntConstant loc0 3).GetTypeName decafTypeFacts = .ok (.valid "int") ∧
    (Expr.StringConstant loc0 "x").GetTypeName decafTypeFacts = .ok (.valid "string") ∧
    (Expr.ArithmeticExpr (some (Expr.IntConstant loc0 3)) (oper "+")
        (Expr.StringConstant loc0 "x")).GetTypeName decafTypeFacts = .ok (.valid "string") ∧
    ¬ isErrorType decafTypeFacts
        ((Expr.ArithmeticExpr (some (Expr.IntConstant loc0 3)) (oper "+")
          (Expr.StringConstant loc0 "x")).GetTypeName decafTypeFacts) ∧
    (Expr.RelationalExpr (Expr.IntConstant loc0 3) (oper "<")
        (Expr.StringConstant loc0 "x")).GetTypeName decafTypeFacts = .ok (.valid "bool") ∧
    ¬ isErrorType decafTypeFacts
        ((Expr.RelationalExpr (Expr.IntConstant loc0 3) (oper "<")
          (Expr.StringConstant loc0 "x")).GetTypeName decafTypeFacts) := by
  refine ⟨rfl, rfl, rfl, ?_, rfl, ?_⟩ <;> decide

/-- C8, amended: a binary `ArithmeticExpr` whose operands resolve differently
resolves to what its right operand resolves to, and a `RelationalExpr` whose
operands resolve differently resolves to `bool`. -/
theorem mismatched_operands_GetTypeName {Ty : Type} (T : TypeFacts Ty)
    (left right : Expr Ty) (arithOp relOp : Operator)
    (_hdiff : left.GetTypeName T ≠ right.GetTypeName T) :
    (Expr.ArithmeticExpr (some left) arithOp right).GetTypeName T = right.GetTypeName T ∧
    (Expr.RelationalExpr left relOp right).GetTypeName T = .ok (.valid "bool") := by
  constructor
  · rw [Expr.GetTypeName]
  · rw [Expr.GetTypeName]

/-- Witness for the amended C8: `3 + "x"` resolves to `string`, the type of
`"x"`, and `3 < "x"` to `bool`. -/
theorem mismatched_operands_GetTypeName_witness :
    (Expr.IntConstant loc0 3).GetTypeName decafTypeFacts
      ≠ (Expr.StringConstant loc0 "x").GetTypeName decafTypeFacts ∧
    ((Expr.ArithmeticExpr (some (Expr.IntConstant loc0 3)) (oper "+")
        (Expr.StringConstant loc0 "x")).GetTypeName decafTypeFacts = .ok (.valid "string") ∧
     (Expr.RelationalExpr (Expr.IntConstant loc0 3) (oper "<")
        (Expr.StringConstant loc0 "x")).GetTypeName decafTypeFacts = .ok (.valid "bool")) :=
  ⟨by decide,
   mismatched_operands_GetTypeName decafTypeFacts (Expr.IntConstant loc0 3)
     (Expr.StringConstant loc0 "x") (oper "+") (oper "<") (by decide)⟩

/-- C9, as stated, fails on `x < 1`, `x == 1`, `x && true`, `x + 1` and
`1 = x`, with `x` resolving to the error-type sentinel: the first three
resolve to `bool`, the last two to `int`. -/
theorem error_operand_counterexample :
    isErrorType decafTypeFacts (errVar.GetTypeName decafTypeFacts) ∧
    (Expr.RelationalExpr errVar (oper "<") (Expr.IntConstant loc0 1)).GetTypeName decafTypeFacts
      = .ok (.valid "bool") ∧
    ¬ isErrorType decafTypeFacts ((Expr.RelationalExpr errVar (oper "<")
        (Expr.IntConstant loc0 1)).GetTypeName decafTypeFacts) ∧
    ¬ isErrorType decafTypeFacts ((Expr.EqualityExpr errVar (oper "==")
        (Expr.IntConstant loc0 1)).GetTypeName decafTypeFacts) ∧
    ¬ isErrorType decafTypeFacts ((Expr.LogicalExpr (some errVar) (oper "&&")
        (Expr.BoolConstant loc0 true)).GetTypeName decafTypeFacts) ∧
    ¬ isErrorType decafTypeFacts ((Expr.ArithmeticExpr (some errVar) (oper "+")
        (Expr.IntConstant loc0 1)).GetTypeName decafTypeFacts) ∧
    ¬ isErrorType decafTypeFacts ((Expr.AssignExpr (Expr.IntConstant loc0 1) (oper "=")
        errVar).GetTypeName decafTypeFacts) := by
  refine ⟨?_, rfl, ?_, ?_, ?_, ?_, ?_⟩ <;> decide

/-- C9, amended: when the operand `e` resolves to the error-type sentinel, so
does every `ArithmeticExpr` with `e` as right operand and every `AssignExpr`
with `e` as left operand. -/
theorem error_operand_propagates {Ty : Type} (T : TypeFacts Ty)
    (e other : Expr Ty) (left : Option (Expr Ty)) (op : Operator)
    (herr : isErrorType T (e.GetTypeName T)) :
    isErrorType T ((Expr.ArithmeticExpr left op e).GetTypeName T) ∧
    isErrorType T ((Expr.AssignExpr e op other).GetTypeName T) := by
  constructor
  · rw [Expr.GetTypeName]
    exact herr
  · rw [Expr.GetTypeName]
    exact herr

/-- Witness for the amended C9: with `x` in error, `1 + x` and `x = 1` are in
error. -/
theorem error_operand_propagates_witness :
    isErrorType decafTypeFacts (errVar.GetTypeName decafTypeFacts) ∧
    (isErrorType decafTypeFacts ((Expr.ArithmeticExpr (some (Expr.IntConstant loc0 1))
        (oper "+") errVar).GetTypeName decafTypeFacts) ∧
     isErrorType decafTypeFacts ((Expr.AssignExpr errVar (oper "=")
        (Expr.IntConstant loc0 1)).GetTypeName decafTypeFacts)) :=
  ⟨by decide,
   error_operand_propagates decafTypeFacts errVar (Expr.IntConstant loc0 1)
     (some (Expr.IntConstant loc0 1)) (oper "+") (by decide)⟩

/-! ## Classes without an override -/

/-- The classes `This`, `NewExpr`, `ReadIntegerExpr`, `ReadLineExpr`,
`PostfixExpr` and `EmptyExpr` do not override `GetTypeName`: for every node of
these classes the query is `Expr::GetTypeName` and returns `NULL`. -/
theorem unoverridden_GetTypeName_NULL {Ty : Type} (T : TypeFacts Ty) (loc : yyltype)
    (cType : Ty) (lvalue : LValue Ty) (optr : Operator) :
    (Expr.This loc : Expr Ty).GetTypeName T = .ok .NULL ∧
    (Expr.NewExpr loc cType).GetTypeName T = .ok .NULL ∧
    (Expr.ReadIntegerExpr loc : Expr Ty).GetTypeName T = .ok .NULL ∧
    (Expr.ReadLineExpr loc : Expr Ty).GetTypeName T = .ok .NULL ∧
    (Expr.PostfixExpr loc lvalue optr).GetTypeName T = .ok .NULL ∧
    (Expr.EmptyExpr : Expr Ty).GetTypeName T = .ok .NULL :=
  ⟨rfl, rfl, rfl, rfl, rfl, rfl⟩

/-- C10: evaluation of `GetTypeName` on `this`, `new Foo`, `ReadInteger()`,
`ReadLine()` and `i++`: each returns `NULL`, and so does the compound
expression `- ReadInteger()` built on one of them, while the operand `i` of
the postfix expression itself resolves to `int`. -/
theorem GetTypeName_NULL_nodes :
    (Expr.This loc0 : Expr DecafType).GetTypeName decafTypeFacts = .ok .NULL ∧
    (Expr.NewExpr loc0 fooType).GetTypeName decafTypeFacts = .ok .NULL ∧
    (Expr.ReadIntegerExpr loc0 : Expr DecafType).GetTypeName decafTypeFacts = .ok .NULL ∧
    (Expr.ReadLineExpr loc0 : Expr DecafType).GetTypeName decafTypeFacts = .ok .NULL ∧
    (Expr.PostfixExpr loc0 intVar (oper "++")).GetTypeName decafTypeFacts = .ok .NULL ∧
    (Expr.ArithmeticExpr none (oper "-")
        (Expr.ReadIntegerExpr loc0 : Expr DecafType)).GetTypeName decafTypeFacts = .ok .NULL ∧
    (Expr.ofLValue intVar).GetTypeName decafTypeFacts = .ok (.valid "int") :=
  ⟨(unoverridden_GetTypeName_NULL decafTypeFacts loc0 fooType intVar (oper "++")).1,
   (unoverridden_GetTypeName_NULL decafTypeFacts loc0 fooType intVar (oper "++")).2.1,
   (unoverridden_GetTypeName_NULL decafTypeFacts loc0 fooType intVar (oper "++")).2.2.1,
   (unoverridden_GetTypeName_NULL decafTypeFacts loc0 fooType intVar (oper "++")).2.2.2.1,
   (unoverridden_GetTypeName_NULL decafTypeFacts loc0 fooType intVar (oper "++")).2.2.2.2.1,
   rfl, rfl⟩

/-! ## Array access over a base without array type -/

/-- Both queries of an `ArrayAccess` go through `base->GetType()`: when that
is `NULL`, each of them selects a member through the null pointer. -/
theorem ArrayAccess_null_base_faults {Ty : Type} (T : TypeFacts Ty) (loc : yyltype)
    (base subscript : Expr Ty) (hbase : base.GetType T = .ok none) :
    (Expr.ofLValue (LValue.ArrayAccess loc base subscript)).GetType T = .error .nullDeref ∧
    (Expr.ofLValue (LValue.ArrayAccess loc base subscript)).GetTypeName T
      = .error .nullDeref := by
  constructor
  · rw [Expr.GetType, LValue.GetType, hbase]
  · rw [Expr.GetTypeName, LValue.GetTypeName, hbase]

/-- C11: evaluation of the queries on `3[0]`, `(new int[3])[0]` and
`(1 + 2)[0]`, whose bases have no `Type` at all: `GetType` and `GetTypeName`
both go through the null pointer `base->GetType()` and return nothing. On
`i[0]`, with `i` of type `int`, `GetType` returns `NULL` and `GetTypeName`
goes through that null pointer. -/
theorem ArrayAccess_bad_base_faults :
    ((Expr.ofLValue (LValue.ArrayAccess loc0 (Expr.IntConstant loc0 3)
        (Expr.IntConstant loc0 0))).GetType decafTypeFacts = .error .nullDeref ∧
     (Expr.ofLValue (LValue.ArrayAccess loc0 (Expr.IntConstant loc0 3)
        (Expr.IntConstant loc0 0))).GetTypeName decafTypeFacts = .error .nullDeref) ∧
    ((Expr.ofLValue (LValue.ArrayAccess loc0
        (Expr.NewArrayExpr loc0 (Expr.IntConstant loc0 3) intType)
        (Expr.IntConstant loc0 0))).GetType decafTypeFacts = .error .nullDeref ∧
     (Expr.ofLValue (LValue.ArrayAccess loc0
        (Expr.NewArrayExpr loc0 (Expr.IntConstant loc0 3) intType)
        (Expr.IntConstant loc0 0))).GetTypeName decafTypeFacts = .error .nullDeref) ∧
    ((Expr.ofLValue (LValue.ArrayAccess loc0
        (Expr.ArithmeticExpr (some (Expr.IntConstant loc0 1)) (oper "+")
          (Expr.IntConstant loc0 2))
        (Expr.IntConstant loc0 0))).GetType decafTypeFacts = .error .nullDeref ∧
     (Expr.ofLValue (LValue.ArrayAccess loc0
        (Expr.ArithmeticExpr (some (Expr.IntConstant loc0 1)) (oper "+")
          (Expr.IntConstant loc0 2))
        (Expr.IntConstant loc0 0))).GetTypeName decafTypeFacts = .error .nullDeref) ∧
    (Expr.ofLValue intVar).GetType decafTypeFacts = .ok (some intType) ∧
    (Expr.ofLValue (LValue.ArrayAccess loc0 (Expr.ofLValue intVar)
        (Expr.IntConstant loc0 0))).GetType decafTypeFacts = .ok none ∧
    (Expr.ofLValue (LValue.ArrayAccess loc0 (Expr.ofLValue intVar)
        (Expr.IntConstant loc0 0))).GetTypeName decafTypeFacts = .error .nullDeref :=
  ⟨ArrayAccess_null_base_faults decafTypeFacts loc0 _ _ rfl,
   ArrayAccess_null_base_faults decafTypeFacts loc0 _ _ rfl,
   ArrayAccess_null_base_faults decafTypeFacts loc0 _ _ rfl,
   rfl, rfl, rfl⟩

/-! ## Postfix expressions -/

/-- Both queries of a `PostfixExpr` are the defaults of `Expr`: the class
declares the members `lvalue` and `optr` and no override. -/
theorem PostfixExpr_queries_default {Ty : Type} (T : TypeFacts Ty) (loc : yyltype)
    (lvalue : LValue Ty) (optr : Operator) :
    (Expr.PostfixExpr loc lvalue optr).GetType T = .ok none ∧
    (Expr.PostfixExpr loc lvalue optr).GetTypeName T = .ok .NULL :=
  ⟨rfl, rfl⟩

/-- C12: evaluation of the queries on `i++` and `i--`, with `i` of type `int`:
the lvalue resolves to `int`, and `GetType` and `GetTypeName` of the postfix
expression both return `NULL`. -/
theorem PostfixExpr_resolves_to_NULL :
    (Expr.ofLValue intVar).GetType decafTypeFacts = .ok (some intType) ∧
    (Expr.ofLValue intVar).GetTypeName decafTypeFacts = .ok (.valid "int") ∧
    (Expr.PostfixExpr loc0 intVar (oper "++")).GetType decafTypeFacts = .ok none ∧
    (Expr.PostfixExpr loc0 intVar (oper "++")).GetTypeName decafTypeFacts = .ok .NULL ∧
    (Expr.PostfixExpr loc0 intVar (oper "--")).GetType decafTypeFacts = .ok none ∧
    (Expr.PostfixExpr loc0 intVar (oper "--")).GetTypeName decafTypeFacts = .ok .NULL ∧
    (Expr.PostfixExpr loc0 intVar (oper "++")).GetTypeName decafTypeFacts
      ≠ (Expr.ofLValue intVar).GetTypeName decafTypeFacts :=
  ⟨rfl, rfl,
   (PostfixExpr_queries_default decafTypeFacts loc0 intVar (oper "++")).1,
   (PostfixExpr_queries_default decafTypeFacts loc0 intVar (oper "++")).2,
   (PostfixExpr_queries_default decafTypeFacts loc0 intVar (oper "--")).1,
   (PostfixExpr_queries_default decafTypeFacts loc0 intVar (oper "--")).2,
   by decide⟩

/-! ## Agreement of the two queries -/

/-- C13: whenever `GetType` of a node yields a type `t`, `GetTypeName` of the
node is the type name of `t`. `ArrayAccess`, `FieldAccess` and `Call` are the
classes that override `GetType`; for an `ArrayAccess`, `t` is the element type
of the base's type. -/
theorem GetTypeName_agrees_with_GetType {Ty : Type} (T : TypeFacts Ty) (e : Expr Ty) (t : Ty)
    (htype : e.GetType T = .ok (some t)) :
    e.GetTypeName T = .ok (T.GetTypeName t) := by
  cases e with
  | ofLValue lv =>
    cases lv with
    | ArrayAccess loc base subscript =>
      rw [Expr.GetType, LValue.GetType] at htype
      rw [Expr.GetTypeName, LValue.GetTypeName]
      cases hb : base.GetType T with
      | error f => rw [hb] at htype; cases htype
      | ok r =>
        cases r with
        | none => rw [hb] at htype; cases htype
        | some a =>
          rw [hb] at htype
          have helem : T.GetElemType a = some t := by
            simpa using htype
          simp only [helem]
    | FieldAccess base field type =>
      rw [Expr.GetType, LValue.GetType] at htype
      cases htype
      rfl
  | Call loc base field actuals type =>
    rw [Expr.GetType] at htype
    cases htype
    rfl
  | _ => simp [Expr.GetType] at htype

/-- Witness for C13: `arr[0]` with `arr` of type `int[]`, the variable `i` of
type `int`, and a call `f()` whose type was decided to be `int`, each have
`GetType` the type `int` and `GetTypeName` the name `int`. -/
theorem GetTypeName_agrees_with_GetType_witness :
    ((Expr.ofLValue (LValue.ArrayAccess loc0 arrOfInt
        (Expr.IntConstant loc0 0))).GetType decafTypeFacts = .ok (some intType) ∧
     (Expr.ofLValue (LValue.ArrayAccess loc0 arrOfInt
        (Expr.IntConstant loc0 0))).GetTypeName decafTypeFacts = .ok (.valid "int")) ∧
    ((Expr.ofLValue intVar).GetType decafTypeFacts = .ok (some intType) ∧
     (Expr.ofLValue intVar).GetTypeName decafTypeFacts = .ok (.valid "int")) ∧
    ((Expr.Call loc0 none (ident "f") [] (some intType)).GetType decafTypeFacts
        = .ok (some intType) ∧
     (Expr.Call loc0 none (ident "f") [] (some intType)).GetTypeName decafTypeFacts
        = .ok (.valid "int")) :=
  ⟨⟨rfl, GetTypeName_agrees_with_GetType decafTypeFacts _ intType rfl⟩,
   ⟨rfl, GetTypeName_agrees_with_GetType decafTypeFacts _ intType rfl⟩,
   ⟨rfl, GetTypeName_agrees_with_GetType decafTypeFacts _ intType rfl⟩⟩

/-! ## The right operand decides -/

/-- C14: the type name of an `ArithmeticExpr` is the one of its right operand,
for every left operand and operator; hence `a op b` and `b op a` have the same
type name exactly when `a` and `b` have. -/
theorem ArithmeticExpr_GetTypeName_right {Ty : Type} (T : TypeFacts Ty)
    (a b : Expr Ty) (left : Option (Expr Ty)) (op op2 : Operator) :
    (Expr.ArithmeticExpr left op b).GetTypeName T = b.GetTypeName T ∧
    ((Expr.ArithmeticExpr (some a) op b).GetTypeName T
        = (Expr.ArithmeticExpr (some b) op2 a).GetTypeName T
      ↔ a.GetTypeName T = b.GetTypeName T) := by
  constructor
  · rw [Expr.GetTypeName]
  · rw [Expr.GetTypeName, Expr.GetTypeName]
    exact eq_comm

end Decaf
